/-
  Verification of bin/StripChromeSymbols.py (UIforETW).

  The script is a sequential orchestration of external tools driven from
  `main` and `run_and_look_for_matches`.  We embed it shallowly: external
  state (command line, environment, filesystem, output of external commands)
  is a `World`; every observable action (print, os.popen, shutil.copy2,
  os.rename, os.environ mutation, shutil.rmtree) is recorded as an `Event`;
  the process result is an `Outcome` (sys.exit(0) / normal return, or an
  uncaught Python exception, which makes the interpreter exit with a
  nonzero status).
-/
import Mathlib

set_option maxRecDepth 10000

/-- Events: the externally observable actions the script performs. -/
inductive Event where
  | print (s : String)
  | popen (cmd : String)
  | copy2 (src dst : String)
  | rename (src dst : String)
  | setenv (key val : String)
  | rmtree (dir : String)
deriving DecidableEq, Repr

/-- How the process ends: `exited c` for `sys.exit(c)` or falling off the end
of `main` (c = 0 there), `raised e` for an uncaught Python exception. -/
inductive Outcome where
  | exited (code : Nat)
  | raised (exc : String)
deriving DecidableEq, Repr

/-- Process exit status as the operating system sees it: an uncaught Python
exception makes the interpreter exit with status 1. -/
def exitStatus : Outcome → Nat
  | Outcome.exited c => c
  | Outcome.raised _ => 1

/-- The fixed external state of one invocation. -/
structure World where
  argv : List String
  /-- value of `os.environ.get("_NT_SYMBOL_PATH", "")` -/
  ntSymbolPath : String
  /-- `os.path.exists` at process start -/
  fs0 : String → Bool
  /-- the lines produced by `os.popen(cmd).readlines()` for each command -/
  output : String → List String

/- ---------------- string helpers (Python semantics) ---------------- -/

/-- `sub in s` / `s.count(sub) > 0`: literal substring containment. -/
def hasInfix (sub : List Char) : List Char → Bool
  | [] => sub.isEmpty
  | c :: rest => sub.isPrefixOf (c :: rest) || hasInfix sub rest

/-- Strip a literal leading pattern piece, as `re.match` consumes it. -/
def dropLit (pre s : List Char) : Option (List Char) :=
  if pre.isPrefixOf s then some (s.drop pre.length) else none

/-- What a regex `.*` can match: any run of characters without a newline
(Python `.` does not match a newline). -/
def matchDotStar (s : List Char) : Bool := !s.contains '\n'

/-- Greedy split for a pattern piece `(pre)sep(post)`: among all ways of
writing `s = a ++ sep ++ b` with `a` acceptable for the group before `sep`
and `b` acceptable for the rest of the pattern, a backtracking regex engine
commits to the split with the longest `a` (greedy quantifiers).  Returns
that split. -/
def findLastValid (s sep : List Char) (preOk postOk : List Char → Bool) :
    Option (List Char × List Char) :=
  let idxs := (List.range (s.length + 1)).filter (fun i => sep.isPrefixOf (s.drop i))
  let valid := idxs.filter (fun i => preOk (s.take i) && postOk (s.drop (i + sep.length)))
  valid.getLast?.map (fun i => (s.take i, s.drop (i + sep.length)))

/-- Tail `(.*)"` of `pdb_re`: the third group, greedy, followed by a double
quote; `re.match` allows trailing text (the newline kept by `readlines`). -/
def matchTail3 (s : List Char) : Option (List Char) :=
  (findLastValid s ['"'] matchDotStar (fun _ => true)).map (fun r => r.1)

/-- Tail `(.*); Pdb: (.*)"` of `pdb_re`: groups two and three. -/
def matchTail2 (s : List Char) : Option (List Char × List Char) :=
  match findLastValid s "; Pdb: ".data matchDotStar (fun b => (matchTail3 b).isSome) with
  | none => none
  | some (a, b) =>
    match matchTail3 b with
    | none => none
    | some g3 => some (a, g3)

/-- Group one `(.*-.*-.*-.*-.*)` of `pdb_re` matches exactly the
newline-free strings containing at least four dashes. -/
def g1Ok (s : List Char) : Bool := matchDotStar s && decide (4 ≤ s.count '-')

/-- `pdb_re.match(line)` for
`pdb_re = re.compile(r'"\[RSDS\] PdbSig: {(.*-.*-.*-.*-.*)}; Age: (.*); Pdb: (.*)"')`
(source line 55).  `re.match` anchors at the start of the line only; greedy
quantifiers commit to the rightmost feasible separators. -/
def matchPdbRe (line : String) : Option (String × String × String) :=
  match dropLit "\"[RSDS] PdbSig: \x7b".data line.data with
  | none => none
  | some rest =>
    match findLastValid rest "\x7d; Age: ".data g1Ok (fun b => (matchTail2 b).isSome) with
    | none => none
    | some (g1, b) =>
      match matchTail2 b with
      | none => none
      | some (g2, g3) => some (⟨g1⟩, ⟨g2⟩, ⟨g3⟩)

/-- `guid.replace("-", "")` (source line 69). -/
def removeDashes (g : String) : String := ⟨g.data.filter (fun c => !(c == '-'))⟩

/-- `r"c:\symcache\chrome.dll-%s%sv2.symcache" % (guid, age)` with
`guid = guid.replace("-", "")` (source lines 69 and 71). -/
def symcacheName (guid0 age : String) : String :=
  "c:\\symcache\\chrome.dll-" ++ removeDashes guid0 ++ age ++ "v2.symcache"

/-- The symcache filename the scan derives from one output line
(source lines 66-71), when the line matches `pdb_re`. -/
def symcacheFileOf (line : String) : Option String :=
  (matchPdbRe line).map (fun g => symcacheName g.1 g.2.1)

/-- The concrete scan line of the specification, surrounding quotes
included. -/
def c3line : String :=
  "\"[RSDS] PdbSig: \x7bAAAAAAAA-BBBB-CCCC-DDDD-EEEEEEEEEEEE\x7d; Age: 3; Pdb: C:\\x\\chrome.dll.pdb\""

example : matchPdbRe c3line =
    some ("AAAAAAAA-BBBB-CCCC-DDDD-EEEEEEEEEEEE", "3", "C:\\x\\chrome.dll.pdb") := by
  decide

example : symcacheFileOf c3line =
    some "c:\\symcache\\chrome.dll-AAAAAAAABBBBCCCCDDDDEEEEEEEEEEEE3v2.symcache" := by
  decide

/- ---------------- os.path (Windows / ntpath) ---------------- -/

/-- Windows accepts both separators. -/
def isSep (c : Char) : Bool := c == '\\' || c == '/'

/-- `ntpath.splitdrive`, for drive-letter paths (`"C:..."`); UNC share
prefixes do not occur in this script and are not modelled. -/
def splitDriveL (s : List Char) : List Char × List Char :=
  match s with
  | c1 :: ':' :: rest => ([c1, ':'], rest)
  | _ => ([], s)

/-- `ntpath.split`: split off the last path component; trailing separators
are stripped from the head unless the head is the root. -/
def ntSplitL (s : List Char) : List Char × List Char :=
  let dp := splitDriveL s
  let tail := (dp.2.reverse.takeWhile (fun c => !(isSep c))).reverse
  let head1 := dp.2.take (dp.2.length - tail.length)
  let headStripped := (head1.reverse.dropWhile isSep).reverse
  let head := if headStripped.isEmpty then head1 else headStripped
  (dp.1 ++ head, tail)

/-- `os.path.split` on Windows. -/
def ntSplit (s : String) : String × String :=
  let r := ntSplitL s.data
  (⟨r.1⟩, ⟨r.2⟩)

/-- `os.path.join a b` on Windows, for a relative second argument (the only
case occurring in this script; an absolute or drive-qualified `b` is not
modelled). -/
def ntJoin (a b : String) : String :=
  match a.data.getLast? with
  | none => b
  | some c => if isSep c || c == ':' then a ++ b else a ++ "\\" ++ b

/-- Split a path body on separators. -/
def splitSepsAux : List Char → List Char → List (List Char)
  | [], acc => [acc.reverse]
  | c :: rest, acc =>
    if isSep c then acc.reverse :: splitSepsAux rest []
    else splitSepsAux rest (c :: acc)

/-- One step of `ntpath.normpath` component processing; the stack holds the
kept components in reverse order. -/
def normStep (isAbs : Bool) (stack : List (List Char)) (comp : List Char) :
    List (List Char) :=
  if comp = "..".data then
    match stack with
    | [] => if isAbs then [] else [comp]
    | top :: rest => if top = "..".data then comp :: stack else rest
  else comp :: stack

/-- Re-join components with backslashes. -/
def joinComps : List (List Char) → List Char
  | [] => []
  | [c] => c
  | c :: rest => c ++ '\\' :: joinComps rest

/-- `ntpath.normpath`: forward slashes become backslashes, `.` components
drop, `..` components pop (kept at the front of a relative path, dropped at
a root); the empty result is `"."`. -/
def ntNormpath (p : String) : String :=
  let s := p.data.map (fun c => if c == '/' then '\\' else c)
  let dp := splitDriveL s
  let isAbs := match dp.2 with
    | c :: _ => isSep c
    | [] => false
  let comps := (splitSepsAux dp.2 []).filter
    (fun c => !(c.isEmpty) && !(c = ".".data))
  let kept := (comps.foldl (normStep isAbs) []).reverse
  let body := joinComps kept
  let root : List Char := if isAbs then ['\\'] else []
  if dp.1.isEmpty && root.isEmpty && body.isEmpty then "."
  else ⟨dp.1 ++ root ++ body⟩

example : ntSplit "C:\\tools\\StripChromeSymbols.py" = ("C:\\tools", "StripChromeSymbols.py") := by decide
example : (ntSplit "C:\\b\\build\\src\\out\\Release\\syzygy\\chrome.dll.pdb").2 = "chrome.dll.pdb" := by decide
example : ntJoin "C:\\tools" "pdbcopy.exe" = "C:\\tools\\pdbcopy.exe" := by decide
example : ntNormpath "C:\\tools\\..\\third_party\\pdbcopy.exe" = "C:\\third_party\\pdbcopy.exe" := by decide

/- ---------------- run_and_look_for_matches (source lines 51-101) ------- -/

/-- The uncaught exception at source line 78: `symcache_files` (and likewise
`retrieve_path`, `pdbcopy_path`, `local_symbol_files`, `tempdirs`) are local
variables of `main`, neither globals nor parameters, so the first reference
to `symcache_files` inside `run_and_look_for_matches` fails name lookup. -/
def nameErrorSymcacheFiles : String :=
  "NameError: name symcache_files is not defined"

/-- `line.count("chrome.dll") > 0 or line.count("chrome_child.dll") > 0`
(source line 65). -/
def mentionsChrome (line : String) : Bool :=
  hasInfix "chrome.dll".data line.data || hasInfix "chrome_child.dll".data line.data

/-- `"Found uncached reference to %s: %s - %s" % (filepart, guid, age, )`
(source line 77); `guid` is already dash-stripped there. -/
def foundMsg (filepart guid age : String) : String :=
  "Found uncached reference to " ++ filepart ++ ": " ++ guid ++ " - " ++ age

/-- A line on which the scan loop reaches source line 78: it mentions one of
the watched binary names, matches `pdb_re`, and its derived symcache file
does not exist. -/
def triggersUncached (fs : String → Bool) (line : String) : Bool :=
  mentionsChrome line &&
    (match matchPdbRe line with
     | some g => !(fs (symcacheName g.1 g.2.1))
     | none => false)

/-- The loop body of `run_and_look_for_matches` (source lines 64-100) over
the captured output lines.  A line that mentions neither binary name, fails
`pdb_re`, or whose symcache file exists is skipped without output.  On the
first uncached match the script prints the "Found uncached reference" line
(source line 77) and then raises `NameError` at `symcache_files.append`
(source line 78): `symcache_files` is a local of `main`, not in scope here.
Source lines 79-100 (retrieval, local-pdb fallback, pdbcopy stripping) are
therefore unreachable and have no counterpart in the model. -/
def scanGo (fs : String → Bool) : List String → List Event × Except String Bool
  | [] => ([], Except.ok false)
  | line :: rest =>
    if mentionsChrome line then
      match matchPdbRe line with
      | none => scanGo fs rest
      | some (guid0, age, path) =>
        if fs (symcacheName guid0 age) then
          scanGo fs rest
        else
          ([Event.print (foundMsg (ntSplit path).2 (removeDashes guid0) age)],
           Except.error nameErrorSymcacheFiles)
    else scanGo fs rest

/-- `run_and_look_for_matches(command)` (source lines 51-101):
`os.popen(command).readlines()` then the scan loop.  Returns the recorded
events and either `ok found_uncached` or the uncaught exception. -/
def run_and_look_for_matches (w : World) (fs : String → Bool) (command : String) :
    List Event × Except String Bool :=
  let r := scanGo fs (w.output command)
  (Event.popen command :: r.1, r.2)

/- ---------------- main: preflight (source lines 104-134) ---------------- -/

def usageMsg (prog : String) : String := "Usage: " ++ prog ++ " trace.etl"

def noSymsrvMsg : String :=
  "Chromium symbol server is not in _NT_SYMBOL_PATH. No symbol stripping needed."

def pdbcopyMissingMsg : String := "pdbcopy.exe not found. No symbol stripping is possible."

def retrieveMissingMsg : String := "RetrieveSymbols.exe not found. No symbol retrieval is possible."

def preTransMsg : String :=
  "Pre-translating chrome symbols from stripped PDBs to avoid 10-15 minute translation times."

/-- The support files of the copy loop at source line 121. -/
def supportFiles : List String := ["pdbcopy.exe", "dbghelp.dll", "symsrv.dll"]

/-- `os.path.normpath(os.path.join(script_dir, r"..\third_party", f))`
(source lines 123-124). -/
def thirdPartySource (script_dir f : String) : String :=
  ntNormpath (ntJoin (ntJoin script_dir "..\\third_party") f)

/-- `os.path.normpath(os.path.join(script_dir, f))` (source line 125). -/
def supportDest (script_dir f : String) : String :=
  ntNormpath (ntJoin script_dir f)

/-- The uncaught exception `shutil.copy2` raises when its source file does
not exist (Python raises an IOError / FileNotFoundError; the message is
representative, with the quoted path unadorned). -/
def copyErrMsg (src : String) : String :=
  "IOError: No such file or directory: " ++ src

/-- One iteration of the support-file copy loop (source lines 121-126).
Note the existence test is `os.path.exists(third_party)` — the bare file
name, resolved against the current working directory, not against
`script_dir`.  A successful `shutil.copy2` makes the destination exist;
when the third_party source file is absent, `shutil.copy2` raises an
uncaught IOError, so the loop stops (remaining files are never copied, no
message of the script is printed) and the exception propagates out of
`main`. -/
def copyOneSupport (script_dir : String)
    (st : List Event × Except String (String → Bool)) (f : String) :
    List Event × Except String (String → Bool) :=
  match st.2 with
  | Except.error _ => st
  | Except.ok fs =>
    if fs f then st
    else if fs (thirdPartySource script_dir f) then
      (st.1 ++ [Event.copy2 (thirdPartySource script_dir f) (supportDest script_dir f)],
       Except.ok (fun q => if q = supportDest script_dir f then true else fs q))
    else
      (st.1, Except.error (copyErrMsg (thirdPartySource script_dir f)))

/-- The support-file copy loop (source lines 121-126): either the updated
filesystem, or the uncaught IOError of the first failing copy. -/
def copySupportFiles (script_dir : String) (fs : String → Bool) :
    List Event × Except String (String → Bool) :=
  supportFiles.foldl (copyOneSupport script_dir) ([], Except.ok fs)

/- ---------------- main: epilogue (source lines 155-190) ---------------- -/

/-- `os.rename src dst` as a filesystem update; the OSError raised when the
source does not exist is not modelled (no claim depends on it). -/
def osRename (fs : String → Bool) (src dst : String) : String → Bool :=
  fun q => if q = dst then true else if q = src then false else fs q

def strippedMsg (sp : String) : String :=
  "Stripped PDBs are in " ++ sp ++ ". Converting to symcache files now."

/-- `"Renaming %s to %s to stop unstripped PDBs from being used." %
(local_pdb, temp_name)` with `temp_name = local_pdb + "x"` (source
lines 160-161). -/
def renameMsg (p : String) : String :=
  "Renaming " ++ p ++ " to " ++ p ++ "x to stop unstripped PDBs from being used."

/-- Events of the forward rename loop (source lines 159-162): a print and a
rename per local symbol file, in list order. -/
def renameFwdEvents (locals : List String) : List Event :=
  locals.flatMap (fun p => [Event.print (renameMsg p), Event.rename p (p ++ "x")])

/-- Filesystem effect of the forward rename loop (source lines 159-162);
prints do not touch the filesystem, so events and state are decomposed. -/
def applyRenamesFwd (fs : String → Bool) (locals : List String) : String → Bool :=
  locals.foldl (fun g p => osRename g p (p ++ "x")) fs

/-- Events of the restore loop (source lines 169-171): one rename back per
file, in the same list order, no prints. -/
def renameBackEvents (locals : List String) : List Event :=
  locals.map (fun p => Event.rename (p ++ "x") p)

/-- Filesystem effect of the restore loop (source lines 169-171). -/
def applyRenamesBack (fs : String → Bool) (locals : List String) : String → Bool :=
  locals.foldl (fun g p => osRename g (p ++ "x") p) fs

/-- The verification loop's prints (source lines 174-178). -/
def verifyEvents (fs : String → Bool) (files : List String) : List Event :=
  files.map (fun f =>
    if fs f then Event.print (f ++ " generated.")
    else Event.print ("Error: " ++ f ++ " not generated."))

/-- The `error` flag after the verification loop (source lines 173-179):
set iff some expected symcache file is missing. -/
def anyMissing (fs : String → Bool) (files : List String) : Bool :=
  files.any (fun f => !(fs f))

/-- `'xperf -i "%s" -tle -tti -a symcache -dbgid' % tracename`
(source line 150). -/
def scanCommand (tracename : String) : String :=
  "xperf -i \"" ++ tracename ++ "\" -tle -tti -a symcache -dbgid"

/-- `'xperf -i "%s" -symbols -tle -tti -a symcache -build' % tracename`
(source line 164). -/
def genCommand (tracename : String) : String :=
  "xperf -i \"" ++ tracename ++ "\" -symbols -tle -tti -a symcache -build"

def retainMsg : String := "Retaining PDBs to allow rerunning xperf command-line."

/-- Source lines 155-190: the part of `main` after the scan, taking the
lists `tempdirs`, `symcache_files`, `local_symbol_files` and the
`found_uncached` flag accumulated so far.  If any stripping happened
(`tempdirs` non-empty): join the temp dirs into `_NT_SYMBOL_PATH`, rename
local PDBs away, run the cache-rebuild command, rename them back, verify
each expected symcache file, and delete the temp dirs only when none is
missing; always ends with exit status 0.  `shutil.rmtree` is modelled on
the directory path itself (`ignore_errors=True`). -/
def mainEpilogue (tracename : String)
    (tempdirs symcache_files local_symbol_files : List String)
    (found_uncached : Bool) (fs : String → Bool) :
    List Event × (String → Bool) × Outcome :=
  if tempdirs.isEmpty then
    ([Event.print (if found_uncached then "No PDBs copied, nothing to do."
                   else "No uncached PDBS found, nothing to do.")],
     fs, Outcome.exited 0)
  else
    let symbol_path := String.intercalate ";" tempdirs
    let fs1 := applyRenamesFwd fs local_symbol_files
    let fs2 := applyRenamesBack fs1 local_symbol_files
    let err := anyMissing fs2 symcache_files
    let evs :=
      [Event.print (strippedMsg symbol_path), Event.setenv "_NT_SYMBOL_PATH" symbol_path]
      ++ renameFwdEvents local_symbol_files
      ++ [Event.print ("> " ++ genCommand tracename), Event.popen (genCommand tracename)]
      ++ renameBackEvents local_symbol_files
      ++ verifyEvents fs2 symcache_files
      ++ (if err then [Event.print retainMsg] else tempdirs.map Event.rmtree)
    let fs3 := if err then fs2
      else tempdirs.foldl (fun g d => fun q => if q = d then false else g q) fs2
    (evs, fs3, Outcome.exited 0)

/- ---------------- main (source lines 104-190) ---------------- -/

/-- `main()` (source lines 104-190; named `pyMain` because `main` is
reserved in Lean).  Early exits: usage (line 105), missing symbol-server
marker (line 110), missing pdbcopy.exe or RetrieveSymbols.exe in the script
directory (lines 128-134), all with exit status 0.  An IOError raised by a
failing support-file copy (lines 121-126) or the NameError raised inside
the scan propagates out uncaught.  When the scan returns, `tempdirs`,
`symcache_files` and `local_symbol_files` are still the empty lists `main`
initialised (lines 140-148): the helper never returns after appending to
them. -/
def pyMain (w : World) : List Event × Outcome :=
  if w.argv.length < 2 then
    ([Event.print (usageMsg (w.argv.headD ""))], Outcome.exited 0)
  else if !(hasInfix "chromium-browser-symsrv".data w.ntSymbolPath.data) then
    ([Event.print noSymsrvMsg], Outcome.exited 0)
  else
    let script_dir := (ntSplit (w.argv.headD "")).1
    let retrieve_path := ntJoin script_dir "RetrieveSymbols.exe"
    let pdbcopy_path := ntJoin script_dir "pdbcopy.exe"
    let c := copySupportFiles script_dir w.fs0
    match c.2 with
    | Except.error e => (c.1, Outcome.raised e)
    | Except.ok fsc =>
      if !(fsc pdbcopy_path) then
        (c.1 ++ [Event.print pdbcopyMissingMsg], Outcome.exited 0)
      else if !(fsc retrieve_path) then
        (c.1 ++ [Event.print retrieveMissingMsg], Outcome.exited 0)
      else
        let tracename := w.argv.getD 1 ""
        let command := scanCommand tracename
        let r := run_and_look_for_matches w fsc command
        match r.2 with
        | Except.error e =>
          (c.1 ++ [Event.print preTransMsg, Event.print ("> " ++ command)] ++ r.1,
           Outcome.raised e)
        | Except.ok found =>
          let ep := mainEpilogue tracename [] [] [] found fsc
          (c.1 ++ [Event.print preTransMsg, Event.print ("> " ++ command)] ++ r.1 ++ ep.1,
           ep.2.2)

/- ---------------- scan lemmas ---------------- -/

/-- A line that does not reach source line 78 is skipped silently. -/
theorem scanGo_skip (fs : String → Bool) (line : String) (rest : List String)
    (h : triggersUncached fs line = false) :
    scanGo fs (line :: rest) = scanGo fs rest := by
  by_cases hm : mentionsChrome line
  · rcases hre : matchPdbRe line with _ | ⟨g, a, p⟩
    · simp [scanGo, hm, hre]
    · have hc : fs (symcacheName g a) = true := by
        simp [triggersUncached, hm, hre] at h
        exact h
      simp [scanGo, hm, hre, hc]
  · simp [scanGo, hm]

/-- A scan over lines none of which reaches source line 78 produces no
events and returns `found_uncached = False`. -/
theorem scanGo_all_skip (fs : String → Bool) (lines : List String)
    (h : ∀ l ∈ lines, triggersUncached fs l = false) :
    scanGo fs lines = ([], Except.ok false) := by
  induction lines with
  | nil => rfl
  | cons line rest ih =>
    rw [scanGo_skip fs line rest (h line (List.mem_cons_self line rest))]
    exact ih (fun l hl => h l (List.mem_cons_of_mem line hl))

/-- The scan stops at the first line that reaches source line 78: the
"Found uncached reference" message is printed and `NameError` is raised. -/
theorem scanGo_first_trigger (fs : String → Bool) (pre : List String)
    (line : String) (post : List String)
    (hpre : ∀ l ∈ pre, triggersUncached fs l = false)
    (h : triggersUncached fs line = true) :
    ∃ m, scanGo fs (pre ++ line :: post) =
      ([Event.print m], Except.error nameErrorSymcacheFiles) := by
  induction pre with
  | nil =>
    simp only [List.nil_append]
    have hm : mentionsChrome line = true := by
      simp [triggersUncached] at h
      exact h.1
    rcases hre : matchPdbRe line with _ | ⟨g, a, p⟩
    · exfalso
      simp [triggersUncached, hre] at h
    · have hc : fs (symcacheName g a) = false := by
        simp [triggersUncached, hm, hre] at h
        exact h
      refine ⟨foundMsg (ntSplit p).2 (removeDashes g) a, ?_⟩
      simp [scanGo, hm, hre, hc]
  | cons q rest ih =>
    rw [List.cons_append, scanGo_skip fs q _ (hpre q (List.mem_cons_self q rest))]
    exact ih (fun l hl => hpre l (List.mem_cons_of_mem q hl))

/- ---------------- concrete worlds ---------------- -/

/-- A run in which everything is configured (symbol server in the path,
tools present in both the working and the script directory), the trace
contains one chrome.dll reference with no cached symcache file, retrieval
produces no success line, and the original PDB path does not exist. -/
def wBug : World :=
  { argv := ["C:\\tools\\StripChromeSymbols.py", "trace.etl"]
    ntSymbolPath := "SRV*c:\\symbols*foo;chromium-browser-symsrv"
    fs0 := fun p =>
      (["pdbcopy.exe", "dbghelp.dll", "symsrv.dll",
        "C:\\tools\\pdbcopy.exe", "C:\\tools\\RetrieveSymbols.exe"] : List String).contains p
    output := fun c => if c = scanCommand "trace.etl" then [c3line] else [] }

/-- Event classifier: is this an `os.popen` invocation? -/
def isPopenEv : Event → Bool
  | Event.popen _ => true
  | _ => false

/- ---------------- claims ---------------- -/

/-- C3: for the specification's scan line (quotes included), the derived
cache filename is `c:\symcache\chrome.dll-AAAAAAAABBBBCCCCDDDDEEEEEEEEEEEE3v2.symcache`:
dashes removed from the signature, age appended, fixed prefix and suffix,
and nothing else. -/
theorem c3_symcache_filename :
    symcacheFileOf c3line =
      some "c:\\symcache\\chrome.dll-AAAAAAAABBBBCCCCDDDDEEEEEEEEEEEE3v2.symcache" := by
  decide

/-- C2: whenever some enumerator output line mentions chrome.dll or
chrome_child.dll, matches `pdb_re` and its computed symcache file does not
exist (and it is the first such line), `run_and_look_for_matches` raises
the uncaught `NameError` (at the `symcache_files.append` of source line 78,
right after the "Found uncached reference" print), so no retrieval and no
stripping happen: the only events are the scan's own `os.popen` and that
one print. -/
theorem c2_nameerror_on_first_uncached (w : World) (fs : String → Bool)
    (command : String) (pre : List String) (line : String) (post : List String)
    (hout : w.output command = pre ++ line :: post)
    (hpre : ∀ l ∈ pre, triggersUncached fs l = false)
    (hline : triggersUncached fs line = true) :
    ∃ m, run_and_look_for_matches w fs command =
      ([Event.popen command, Event.print m], Except.error nameErrorSymcacheFiles) := by
  obtain ⟨m, hm⟩ := scanGo_first_trigger fs pre line post hpre hline
  refine ⟨m, ?_⟩
  unfold run_and_look_for_matches
  rw [hout, hm]

/-- A world whose scan output is the single specification line and whose
filesystem is empty. -/
def wScan : World :=
  { argv := [], ntSymbolPath := "", fs0 := fun _ => false,
    output := fun _ => [c3line] }

/-- Witness for C2 at a concrete world: the specification line with no
cached symcache file triggers the `NameError`. -/
theorem c2_nameerror_on_first_uncached_witness :
    triggersUncached (fun _ => false) c3line = true ∧
      ∃ m, run_and_look_for_matches wScan (fun _ => false) "scan" =
        ([Event.popen "scan", Event.print m], Except.error nameErrorSymcacheFiles) :=
  ⟨by decide,
   c2_nameerror_on_first_uncached wScan (fun _ => false) "scan" [] c3line [] rfl
     (fun l hl => absurd hl (List.not_mem_nil l)) (by decide)⟩

/-- C1 (code bug): the specification requires exit status 0 on every path,
but on a run that encounters an uncached chrome.dll reference the process
dies with the uncaught `NameError` of source line 78, whose interpreter
exit status is 1, not 0. -/
theorem c1_nonzero_exit_on_uncached_reference :
    (pyMain wBug).2 = Outcome.raised nameErrorSymcacheFiles ∧
      exitStatus (pyMain wBug).2 ≠ 0 := by
  decide

/-- C6 (code bug): for an uncached reference whose retrieval output has no
success marker and whose original PDB path does not exist, the
specification requires a "Failed to retrieve symbols" message and
continuation; the code instead never reaches the retrieval step (source
lines 79-100): it dies with the uncaught `NameError` at source line 78,
prints no failure message, and invokes no external tool beyond the scan
itself. -/
theorem c6_retrieval_fallback_unreachable :
    (pyMain wBug).2 = Outcome.raised nameErrorSymcacheFiles ∧
      Event.print "Failed to retrieve symbols. Check for RetrieveSymbols.exe and support files."
        ∉ (pyMain wBug).1 ∧
      (pyMain wBug).1.filter isPopenEv = [Event.popen (scanCommand "trace.etl")] := by
  decide

/-- When the three support files are present under their bare (working
directory relative) names, the copy loop of source lines 121-126 copies
nothing and leaves the filesystem unchanged. -/
theorem copySupportFiles_all_present (sd : String) (fs : String → Bool)
    (h1 : fs "pdbcopy.exe" = true) (h2 : fs "dbghelp.dll" = true)
    (h3 : fs "symsrv.dll" = true) :
    copySupportFiles sd fs = ([], Except.ok fs) := by
  simp [copySupportFiles, supportFiles, copyOneSupport, h1, h2, h3]

/-- C4: when every matching reference in the enumerator output already has
its symcache file on disk (and every other line is a non-match), the whole
run performs zero retrieval and zero stripping actions: the only external
invocation is the scan itself, the run reports nothing to do, and it exits
with status 0 — rerunning against a fully cached trace is a no-op. -/
theorem c4_cached_run_is_noop (w : World)
    (hlen : 2 ≤ w.argv.length)
    (hsrv : hasInfix "chromium-browser-symsrv".data w.ntSymbolPath.data = true)
    (h1 : w.fs0 "pdbcopy.exe" = true) (h2 : w.fs0 "dbghelp.dll" = true)
    (h3 : w.fs0 "symsrv.dll" = true)
    (h4 : w.fs0 (ntJoin (ntSplit (w.argv.headD "")).1 "pdbcopy.exe") = true)
    (h5 : w.fs0 (ntJoin (ntSplit (w.argv.headD "")).1 "RetrieveSymbols.exe") = true)
    (h6 : ∀ l ∈ w.output (scanCommand (w.argv.getD 1 "")),
            triggersUncached w.fs0 l = false) :
    pyMain w =
      ([Event.print preTransMsg,
        Event.print ("> " ++ scanCommand (w.argv.getD 1 "")),
        Event.popen (scanCommand (w.argv.getD 1 "")),
        Event.print "No uncached PDBS found, nothing to do."],
       Outcome.exited 0) := by
  have hlen' : ¬ (w.argv.length < 2) := by omega
  have hcopy := copySupportFiles_all_present (ntSplit (w.argv.headD "")).1 w.fs0 h1 h2 h3
  have hscan := scanGo_all_skip w.fs0 (w.output (scanCommand (w.argv.getD 1 ""))) h6
  simp only [List.headD_eq_head?_getD, List.getD_eq_getElem?_getD] at hcopy hscan h4 h5
  simp [pyMain, hlen', hsrv, hcopy, h4, h5, run_and_look_for_matches, hscan, mainEpilogue]

/-- A fully cached world: the trace references chrome.dll but the derived
symcache file already exists. -/
def wCached : World :=
  { argv := ["C:\\tools\\StripChromeSymbols.py", "trace.etl"]
    ntSymbolPath := "chromium-browser-symsrv"
    fs0 := fun p =>
      (["pdbcopy.exe", "dbghelp.dll", "symsrv.dll",
        "C:\\tools\\pdbcopy.exe", "C:\\tools\\RetrieveSymbols.exe",
        "c:\\symcache\\chrome.dll-AAAAAAAABBBBCCCCDDDDEEEEEEEEEEEE3v2.symcache"] : List String).contains p
    output := fun c => if c = scanCommand "trace.etl" then [c3line, "unrelated output line\n"] else [] }

/-- Witness for C4: a concrete fully cached run reduces to the scan and the
"nothing to do" report, exiting 0. -/
theorem c4_cached_run_is_noop_witness :
    wCached.fs0 "c:\\symcache\\chrome.dll-AAAAAAAABBBBCCCCDDDDEEEEEEEEEEEE3v2.symcache" = true ∧
      pyMain wCached =
        ([Event.print preTransMsg,
          Event.print ("> " ++ scanCommand "trace.etl"),
          Event.popen (scanCommand "trace.etl"),
          Event.print "No uncached PDBS found, nothing to do."],
         Outcome.exited 0) :=
  ⟨by decide,
   c4_cached_run_is_noop wCached (by decide) (by decide) (by decide) (by decide)
     (by decide) (by decide) (by decide) (by decide)⟩

/-- C5: when no enumerator output line mentions chrome.dll or
chrome_child.dll, no retrieval or stripping tool is invoked, the scan
reports that no uncached reference was found, and the process exits with
status 0 having printed only the scan-start lines and that report. -/
theorem c5_no_mention_no_work (w : World)
    (hlen : 2 ≤ w.argv.length)
    (hsrv : hasInfix "chromium-browser-symsrv".data w.ntSymbolPath.data = true)
    (h1 : w.fs0 "pdbcopy.exe" = true) (h2 : w.fs0 "dbghelp.dll" = true)
    (h3 : w.fs0 "symsrv.dll" = true)
    (h4 : w.fs0 (ntJoin (ntSplit (w.argv.headD "")).1 "pdbcopy.exe") = true)
    (h5 : w.fs0 (ntJoin (ntSplit (w.argv.headD "")).1 "RetrieveSymbols.exe") = true)
    (h6 : ∀ l ∈ w.output (scanCommand (w.argv.getD 1 "")), mentionsChrome l = false) :
    pyMain w =
      ([Event.print preTransMsg,
        Event.print ("> " ++ scanCommand (w.argv.getD 1 "")),
        Event.popen (scanCommand (w.argv.getD 1 "")),
        Event.print "No uncached PDBS found, nothing to do."],
       Outcome.exited 0) := by
  have hlen' : ¬ (w.argv.length < 2) := by omega
  have hcopy := copySupportFiles_all_present (ntSplit (w.argv.headD "")).1 w.fs0 h1 h2 h3
  have h6' : ∀ l ∈ w.output (scanCommand (w.argv.getD 1 "")),
      triggersUncached w.fs0 l = false := by
    intro l hl
    simp [triggersUncached, h6 l hl]
  have hscan := scanGo_all_skip w.fs0 (w.output (scanCommand (w.argv.getD 1 ""))) h6'
  simp only [List.headD_eq_head?_getD, List.getD_eq_getElem?_getD] at hcopy hscan h4 h5
  simp [pyMain, hlen', hsrv, hcopy, h4, h5, run_and_look_for_matches, hscan, mainEpilogue]

/-- A world whose trace mentions neither watched binary. -/
def wNone : World :=
  { argv := ["C:\\tools\\StripChromeSymbols.py", "trace.etl"]
    ntSymbolPath := "chromium-browser-symsrv"
    fs0 := fun p =>
      (["pdbcopy.exe", "dbghelp.dll", "symsrv.dll",
        "C:\\tools\\pdbcopy.exe", "C:\\tools\\RetrieveSymbols.exe"] : List String).contains p
    output := fun c =>
      if c = scanCommand "trace.etl" then ["nothing to see here\n", "ntdll.dll reference\n"] else [] }

/-- Witness for C5 at a concrete world with no chrome reference. -/
theorem c5_no_mention_no_work_witness :
    (∀ l ∈ wNone.output (scanCommand "trace.etl"), mentionsChrome l = false) ∧
      pyMain wNone =
        ([Event.print preTransMsg,
          Event.print ("> " ++ scanCommand "trace.etl"),
          Event.popen (scanCommand "trace.etl"),
          Event.print "No uncached PDBS found, nothing to do."],
         Outcome.exited 0) :=
  ⟨by decide,
   c5_no_mention_no_work wNone (by decide) (by decide) (by decide) (by decide)
     (by decide) (by decide) (by decide) (by decide)⟩

/- ---------------- epilogue lemmas ---------------- -/

theorem renameFwdEvents_no_rmtree (locals : List String) (d : String) :
    Event.rmtree d ∉ renameFwdEvents locals := by
  simp [renameFwdEvents]

theorem renameBackEvents_no_rmtree (locals : List String) (d : String) :
    Event.rmtree d ∉ renameBackEvents locals := by
  simp [renameBackEvents]

theorem verifyEvents_no_rmtree (fs : String → Bool) (files : List String) (d : String) :
    Event.rmtree d ∉ verifyEvents fs files := by
  simp only [verifyEvents, List.mem_map, not_exists]
  rintro f ⟨hf, hEq⟩
  by_cases h : fs f <;> simp [h] at hEq

/-- C7: whenever the cache-rebuild step runs (some stripping happened, so
`tempdirs` is non-empty), the temporary directories are deleted exactly
when every expected symcache file exists at the verification point; when
one is missing they are all retained, the per-file error line and the
retention notice are printed; either way the process exits with status 0. -/
theorem c7_cleanup_iff_all_generated (tracename : String)
    (tempdirs symcache_files local_symbol_files : List String)
    (found : Bool) (fs : String → Bool) (h : tempdirs ≠ []) :
    (mainEpilogue tracename tempdirs symcache_files local_symbol_files found fs).2.2 =
        Outcome.exited 0 ∧
      ((∀ f ∈ symcache_files,
          applyRenamesBack (applyRenamesFwd fs local_symbol_files) local_symbol_files f = true) →
        ∀ d ∈ tempdirs,
          Event.rmtree d ∈
            (mainEpilogue tracename tempdirs symcache_files local_symbol_files found fs).1) ∧
      ((¬ ∀ f ∈ symcache_files,
          applyRenamesBack (applyRenamesFwd fs local_symbol_files) local_symbol_files f = true) →
        (∀ d, Event.rmtree d ∉
            (mainEpilogue tracename tempdirs symcache_files local_symbol_files found fs).1) ∧
          Event.print retainMsg ∈
            (mainEpilogue tracename tempdirs symcache_files local_symbol_files found fs).1 ∧
          ∃ f ∈ symcache_files,
            Event.print ("Error: " ++ f ++ " not generated.") ∈
              (mainEpilogue tracename tempdirs symcache_files local_symbol_files found fs).1) := by
  cases tempdirs with
  | nil => exact absurd rfl h
  | cons d0 ds =>
    by_cases herr :
        anyMissing (applyRenamesBack (applyRenamesFwd fs local_symbol_files) local_symbol_files)
          symcache_files = true
    · have hne : ¬ ∀ f ∈ symcache_files,
          applyRenamesBack (applyRenamesFwd fs local_symbol_files) local_symbol_files f = true := by
        simp only [anyMissing, List.any_eq_true, Bool.not_eq_true'] at herr
        obtain ⟨f, hf, hmiss⟩ := herr
        intro hall
        simp [hall f hf] at hmiss
      refine ⟨by simp [mainEpilogue, herr], fun hall => absurd hall hne, fun _ => ?_⟩
      refine ⟨?_, ?_, ?_⟩
      · intro d
        have h1 := renameFwdEvents_no_rmtree local_symbol_files d
        have h2 := renameBackEvents_no_rmtree local_symbol_files d
        have h3 := verifyEvents_no_rmtree
          (applyRenamesBack (applyRenamesFwd fs local_symbol_files) local_symbol_files)
          symcache_files d
        simp [mainEpilogue, herr, h1, h2, h3]
      · simp [mainEpilogue, herr]
      · have herr2 := herr
        simp only [anyMissing, List.any_eq_true, Bool.not_eq_true'] at herr2
        obtain ⟨f, hf, hmiss⟩ := herr2
        refine ⟨f, hf, ?_⟩
        have hv : Event.print ("Error: " ++ f ++ " not generated.") ∈
            verifyEvents
              (applyRenamesBack (applyRenamesFwd fs local_symbol_files) local_symbol_files)
              symcache_files := by
          simp only [verifyEvents, List.mem_map]
          exact ⟨f, hf, by simp [hmiss]⟩
        simp [mainEpilogue, herr, List.mem_append, hv]
    · have herr' :
          anyMissing (applyRenamesBack (applyRenamesFwd fs local_symbol_files) local_symbol_files)
            symcache_files = false := by
        simpa using herr
      have hall : ∀ f ∈ symcache_files,
          applyRenamesBack (applyRenamesFwd fs local_symbol_files) local_symbol_files f = true := by
        simp only [anyMissing, List.any_eq_false] at herr'
        intro f hf
        simpa using herr' f hf
      refine ⟨by simp [mainEpilogue, herr'], fun _ d hd => ?_, fun hne => absurd hall hne⟩
      simp [mainEpilogue, herr', List.mem_append]
      simp only [List.mem_cons] at hd
      tauto

/-- Witness for C7: one temp dir and an empty expectation list — all
expected files trivially exist, so the temp dir is removed and the run
exits 0. -/
theorem c7_cleanup_iff_all_generated_witness :
    (mainEpilogue "trace.etl" ["C:\\tmp1"] [] [] true (fun _ => false)).2.2 =
        Outcome.exited 0 ∧
      Event.rmtree "C:\\tmp1" ∈
        (mainEpilogue "trace.etl" ["C:\\tmp1"] [] [] true (fun _ => false)).1 := by
  have hc := c7_cleanup_iff_all_generated "trace.etl" ["C:\\tmp1"] [] [] true
    (fun _ => false) (by decide)
  exact ⟨hc.1, hc.2.1 (by simp) "C:\\tmp1" (by simp)⟩

/- ---------------- rename round-trip lemmas ---------------- -/

theorem strData_append (a b : String) : (a ++ b).data = a.data ++ b.data := rfl

/-- No string equals itself with `"x"` appended. -/
theorem ne_appendX (p : String) : p ≠ p ++ "x" := by
  intro hEq
  have hlen := congrArg (fun s => s.data.length) hEq
  simp [strData_append] at hlen

/-- Appending `"x"` is injective. -/
theorem appendX_inj (p q : String) (hEq : p ++ "x" = q ++ "x") : p = q := by
  have hd := congrArg String.data hEq
  rw [strData_append, strData_append] at hd
  exact String.ext (List.append_cancel_right hd)

theorem applyRenamesFwd_cons (fs : String → Bool) (a : String) (rest : List String) :
    applyRenamesFwd fs (a :: rest) = applyRenamesFwd (osRename fs a (a ++ "x")) rest := rfl

theorem applyRenamesBack_cons (fs : String → Bool) (a : String) (rest : List String) :
    applyRenamesBack fs (a :: rest) = applyRenamesBack (osRename fs (a ++ "x") a) rest := rfl

/-- The restore loop leaves untouched every name that is neither a renamed
file nor its `"x"`-variant. -/
theorem applyRenamesBack_other (locals : List String) (fs : String → Bool) (q : String)
    (h : ∀ p ∈ locals, q ≠ p ++ "x" ∧ q ≠ p) :
    applyRenamesBack fs locals q = fs q := by
  induction locals generalizing fs with
  | nil => rfl
  | cons a rest ih =>
    rw [applyRenamesBack_cons]
    rw [ih (osRename fs (a ++ "x") a) (fun p hp => h p (List.mem_cons_of_mem a hp))]
    have ha := h a (List.mem_cons_self a rest)
    simp [osRename, ha.1, ha.2]

/-- After the restore loop every renamed file exists again under its
original name (no other file in the list may carry that name). -/
theorem applyRenamesBack_restores (locals : List String) (fs : String → Bool) (p : String)
    (hp : p ∈ locals)
    (hcross : ∀ a ∈ locals, ∀ b ∈ locals, a ++ "x" ≠ b) :
    applyRenamesBack fs locals p = true := by
  induction locals generalizing fs with
  | nil => cases hp
  | cons a rest ih =>
    rw [applyRenamesBack_cons]
    by_cases hmem : p ∈ rest
    · exact ih (osRename fs (a ++ "x") a) hmem
        (fun x hx y hy => hcross x (List.mem_cons_of_mem a hx) y (List.mem_cons_of_mem a hy))
    · have hpa : p = a := by
        rcases List.mem_cons.mp hp with hEq | hIn
        · exact hEq
        · exact absurd hIn hmem
      subst hpa
      rw [applyRenamesBack_other rest _ p ?hside]
      · simp [osRename]
      case hside =>
        intro b hb
        refine ⟨?_, ?_⟩
        · exact (hcross b (List.mem_cons_of_mem p hb) p hp).symm
        · intro hEq
          exact hmem (hEq ▸ hb)

/-- After the restore loop no `"x"`-variant of a renamed file remains. -/
theorem applyRenamesBack_clears_x (locals : List String) (fs : String → Bool) (p : String)
    (hp : p ∈ locals)
    (hcross : ∀ a ∈ locals, ∀ b ∈ locals, a ++ "x" ≠ b) :
    applyRenamesBack fs locals (p ++ "x") = false := by
  induction locals generalizing fs with
  | nil => cases hp
  | cons a rest ih =>
    rw [applyRenamesBack_cons]
    by_cases hmem : p ∈ rest
    · exact ih (osRename fs (a ++ "x") a) hmem
        (fun x hx y hy => hcross x (List.mem_cons_of_mem a hx) y (List.mem_cons_of_mem a hy))
    · have hpa : p = a := by
        rcases List.mem_cons.mp hp with hEq | hIn
        · exact hEq
        · exact absurd hIn hmem
      subst hpa
      rw [applyRenamesBack_other rest _ (p ++ "x") ?hside]
      · simp [osRename, (ne_appendX p).symm]
      case hside =>
        intro b hb
        refine ⟨?_, ?_⟩
        · intro hEq
          exact hmem ((appendX_inj p b hEq) ▸ hb)
        · exact hcross p hp b (List.mem_cons_of_mem p hb)

/-- C8: whenever the cache-rebuild step runs, every local unstripped symbol
file is renamed (its name plus `"x"`) before the rebuild command is
invoked, and renamed back afterwards regardless of the build outcome; and
the two passes are a round trip: a file that existed under its original
name and had no `"x"`-variant is restored exactly (assuming no listed file
is the `"x"`-variant of another). -/
theorem c8_rename_then_restore (tracename : String)
    (tempdirs symcache_files local_symbol_files : List String)
    (found : Bool) (fs : String → Bool) (h : tempdirs ≠ [])
    (hcross : ∀ a ∈ local_symbol_files, ∀ b ∈ local_symbol_files, a ++ "x" ≠ b) :
    (∃ evpre evpost,
      (mainEpilogue tracename tempdirs symcache_files local_symbol_files found fs).1 =
          evpre ++ Event.popen (genCommand tracename) :: evpost ∧
        (∀ p ∈ local_symbol_files, Event.rename p (p ++ "x") ∈ evpre) ∧
        (∀ p ∈ local_symbol_files, Event.rename (p ++ "x") p ∈ evpost)) ∧
      (∀ p ∈ local_symbol_files, fs p = true → fs (p ++ "x") = false →
        applyRenamesBack (applyRenamesFwd fs local_symbol_files) local_symbol_files p = fs p ∧
          applyRenamesBack (applyRenamesFwd fs local_symbol_files) local_symbol_files (p ++ "x") =
            fs (p ++ "x")) := by
  constructor
  · cases tempdirs with
    | nil => exact absurd rfl h
    | cons d0 ds =>
      refine ⟨[Event.print (strippedMsg (String.intercalate ";" (d0 :: ds))),
               Event.setenv "_NT_SYMBOL_PATH" (String.intercalate ";" (d0 :: ds))]
                ++ renameFwdEvents local_symbol_files
                ++ [Event.print ("> " ++ genCommand tracename)],
              renameBackEvents local_symbol_files
                ++ verifyEvents
                    (applyRenamesBack (applyRenamesFwd fs local_symbol_files) local_symbol_files)
                    symcache_files
                ++ (if anyMissing
                      (applyRenamesBack (applyRenamesFwd fs local_symbol_files) local_symbol_files)
                      symcache_files
                    then [Event.print retainMsg] else (d0 :: ds).map Event.rmtree),
              ?_, ?_, ?_⟩
      · simp [mainEpilogue, List.append_assoc]
      · intro p hp
        have hm : Event.rename p (p ++ "x") ∈ renameFwdEvents local_symbol_files := by
          simp only [renameFwdEvents, List.mem_flatMap]
          exact ⟨p, hp, by simp⟩
        simp [List.mem_append, hm]
      · intro p hp
        have hm : Event.rename (p ++ "x") p ∈ renameBackEvents local_symbol_files := by
          simp only [renameBackEvents, List.mem_map]
          exact ⟨p, hp, rfl⟩
        simp [List.mem_append, hm]
  · intro p hp hfp hfpx
    refine ⟨?_, ?_⟩
    · rw [applyRenamesBack_restores local_symbol_files _ p hp hcross, hfp]
    · rw [applyRenamesBack_clears_x local_symbol_files _ p hp hcross, hfpx]

/-- Witness for C8 at a concrete epilogue invocation with one temp dir and
one local symbol file. -/
theorem c8_rename_then_restore_witness :
    (∃ evpre evpost,
      (mainEpilogue "trace.etl" ["C:\\tmp1"] [] ["out\\chrome.dll.pdb"] true
          (fun q => q == "out\\chrome.dll.pdb")).1 =
          evpre ++ Event.popen (genCommand "trace.etl") :: evpost ∧
        (∀ p ∈ ["out\\chrome.dll.pdb"], Event.rename p (p ++ "x") ∈ evpre) ∧
        (∀ p ∈ ["out\\chrome.dll.pdb"], Event.rename (p ++ "x") p ∈ evpost)) ∧
      applyRenamesBack
          (applyRenamesFwd (fun q => q == "out\\chrome.dll.pdb") ["out\\chrome.dll.pdb"])
          ["out\\chrome.dll.pdb"] "out\\chrome.dll.pdb" = true := by
  have hc := c8_rename_then_restore "trace.etl" ["C:\\tmp1"] [] ["out\\chrome.dll.pdb"] true
    (fun q => q == "out\\chrome.dll.pdb") (by decide) (by decide)
  refine ⟨hc.1, ?_⟩
  have := (hc.2 "out\\chrome.dll.pdb" (by simp) (by decide) (by decide)).1
  rw [this]
  decide

/- ---------------- C9: preflight copy loop ---------------- -/

/-- A run in which the three support files exist under their bare names
(current working directory) but pdbcopy.exe is absent from the script's
directory C:\tools. -/
def w9 : World :=
  { argv := ["C:\\tools\\StripChromeSymbols.py", "trace.etl"]
    ntSymbolPath := "chromium-browser-symsrv"
    fs0 := fun p => (["pdbcopy.exe", "dbghelp.dll", "symsrv.dll"] : List String).contains p
    output := fun _ => [] }

/-- C9 (counterexample): pdbcopy.exe is absent from the script's directory,
yet the program performs no copy at all — the loop at source line 122
checks the bare file name against the working directory, not the script's
directory — and then exits early complaining pdbcopy.exe is missing. -/
theorem c9_counterexample_no_copy_despite_missing :
    w9.fs0 (ntJoin (ntSplit (w9.argv.headD "")).1 "pdbcopy.exe") = false ∧
      pyMain w9 = ([Event.print pdbcopyMissingMsg], Outcome.exited 0) ∧
      ∀ s d, Event.copy2 s d ∉ (pyMain w9).1 := by
  refine ⟨by decide, by decide, ?_⟩
  intro s d hmem
  rw [show (pyMain w9).1 = [Event.print pdbcopyMissingMsg] from
    congrArg Prod.fst
      (by decide : pyMain w9 = ([Event.print pdbcopyMissingMsg], Outcome.exited 0))] at hmem
  simp at hmem

/-- The copy loop copies from the sibling third_party directory every
support file that is missing under its bare working-directory-relative
name, provided the sibling sources exist (otherwise `shutil.copy2` raises
before reaching the later files) and no copy destination collides with a
bare name. -/
theorem copySupport_copies (sd : String) (fs : String → Bool)
    (hdest : ∀ f ∈ supportFiles, ∀ g ∈ supportFiles, supportDest sd f ≠ g)
    (hsrc : ∀ g ∈ supportFiles, fs (thirdPartySource sd g) = true) :
    ∀ f ∈ supportFiles, fs f = false →
      Event.copy2 (thirdPartySource sd f) (supportDest sd f) ∈ (copySupportFiles sd fs).1 := by
  have h12 : "dbghelp.dll" ≠ supportDest sd "pdbcopy.exe" :=
    Ne.symm (hdest _ (by simp [supportFiles]) _ (by simp [supportFiles]))
  have h13 : "symsrv.dll" ≠ supportDest sd "pdbcopy.exe" :=
    Ne.symm (hdest _ (by simp [supportFiles]) _ (by simp [supportFiles]))
  have h23 : "symsrv.dll" ≠ supportDest sd "dbghelp.dll" :=
    Ne.symm (hdest _ (by simp [supportFiles]) _ (by simp [supportFiles]))
  have hs1 : fs (thirdPartySource sd "pdbcopy.exe") = true := hsrc _ (by simp [supportFiles])
  have hs2 : fs (thirdPartySource sd "dbghelp.dll") = true := hsrc _ (by simp [supportFiles])
  have hs3 : fs (thirdPartySource sd "symsrv.dll") = true := hsrc _ (by simp [supportFiles])
  intro f hf hmiss
  simp only [supportFiles, List.mem_cons, List.not_mem_nil, or_false] at hf
  rcases hf with rfl | rfl | rfl
  · by_cases h2 : fs "dbghelp.dll" <;> by_cases h3 : fs "symsrv.dll" <;>
      simp [copySupportFiles, supportFiles, copyOneSupport, hmiss, h2, h3,
        h12, h13, h23, hs1, hs2, hs3]
  · by_cases h1 : fs "pdbcopy.exe" <;> by_cases h3 : fs "symsrv.dll" <;>
      simp [copySupportFiles, supportFiles, copyOneSupport, hmiss, h1, h3,
        h12, h13, h23, hs1, hs2, hs3]
  · by_cases h1 : fs "pdbcopy.exe" <;> by_cases h2 : fs "dbghelp.dll" <;>
      simp [copySupportFiles, supportFiles, copyOneSupport, hmiss, h1, h2,
        h12, h13, h23, hs1, hs2, hs3]

/-- A run in which dbghelp.dll is absent under its bare name and the
sibling third_party copy is absent as well: `shutil.copy2` raises. -/
def wCrash : World :=
  { argv := ["C:\\tools\\StripChromeSymbols.py", "trace.etl"]
    ntSymbolPath := "chromium-browser-symsrv"
    fs0 := fun p => (["pdbcopy.exe"] : List String).contains p
    output := fun _ => [] }

/-- C9 (amended): the preflight copies into the script directory, from the
sibling third_party directory, each support file that is absent under its
bare working-directory-relative name, provided the sibling source files
exist; when the copy loop completes, a pdbcopy.exe (respectively
RetrieveSymbols.exe) still missing from the script directory makes the
program print the corresponding message and exit early with status 0,
invoking nothing; and when a needed sibling source is itself absent, the
copy raises an uncaught IOError instead — the process dies with a nonzero
status, printing no message and attempting no further copies. -/
theorem c9_amended_preflight :
    (∀ sd fs, (∀ f ∈ supportFiles, ∀ g ∈ supportFiles, supportDest sd f ≠ g) →
      (∀ g ∈ supportFiles, fs (thirdPartySource sd g) = true) →
      ∀ f ∈ supportFiles, fs f = false →
        Event.copy2 (thirdPartySource sd f) (supportDest sd f) ∈ (copySupportFiles sd fs).1) ∧
      (∀ w : World, ∀ fsc : String → Bool, 2 ≤ w.argv.length →
        hasInfix "chromium-browser-symsrv".data w.ntSymbolPath.data = true →
        (copySupportFiles (ntSplit (w.argv.headD "")).1 w.fs0).2 = Except.ok fsc →
        ((fsc (ntJoin (ntSplit (w.argv.headD "")).1 "pdbcopy.exe") = false →
          pyMain w = ((copySupportFiles (ntSplit (w.argv.headD "")).1 w.fs0).1
              ++ [Event.print pdbcopyMissingMsg], Outcome.exited 0)) ∧
        (fsc (ntJoin (ntSplit (w.argv.headD "")).1 "pdbcopy.exe") = true →
          fsc (ntJoin (ntSplit (w.argv.headD "")).1 "RetrieveSymbols.exe") = false →
          pyMain w = ((copySupportFiles (ntSplit (w.argv.headD "")).1 w.fs0).1
              ++ [Event.print retrieveMissingMsg], Outcome.exited 0)))) ∧
      (pyMain wCrash =
          ([], Outcome.raised (copyErrMsg "C:\\third_party\\dbghelp.dll")) ∧
        exitStatus (pyMain wCrash).2 ≠ 0) := by
  refine ⟨copySupport_copies, ?_, by decide⟩
  intro w fsc hlen hsrv hok
  have hlen2 : ¬ (w.argv.length < 2) := by omega
  simp only [List.headD_eq_head?_getD] at hok
  constructor
  · intro hpd
    simp only [List.headD_eq_head?_getD] at hpd
    simp [pyMain, hlen2, hsrv, hok, hpd]
  · intro hpd hrt
    simp only [List.headD_eq_head?_getD] at hpd hrt
    simp [pyMain, hlen2, hsrv, hok, hpd, hrt]

/-- Witness for C9's amended statement: with all three sibling sources
present and nothing in the working directory, a missing pdbcopy.exe is
copied from the sibling directory; and the missing-tool early exit occurs
in the concrete world `w9`, whose copy loop completes without copying. -/
theorem c9_amended_preflight_witness :
    Event.copy2 (thirdPartySource "C:\\tools" "pdbcopy.exe")
        (supportDest "C:\\tools" "pdbcopy.exe")
        ∈ (copySupportFiles "C:\\tools"
            (fun q => (["C:\\third_party\\pdbcopy.exe", "C:\\third_party\\dbghelp.dll",
              "C:\\third_party\\symsrv.dll"] : List String).contains q)).1 ∧
      pyMain w9 = ([Event.print pdbcopyMissingMsg], Outcome.exited 0) := by
  refine ⟨c9_amended_preflight.1 "C:\\tools"
    (fun q => (["C:\\third_party\\pdbcopy.exe", "C:\\third_party\\dbghelp.dll",
      "C:\\third_party\\symsrv.dll"] : List String).contains q)
    (by decide) (by decide) "pdbcopy.exe" (by simp [supportFiles]) (by decide), ?_⟩
  have h := (c9_amended_preflight.2.1 w9 w9.fs0 (by decide) (by decide) rfl).1 (by decide)
  rw [h]
  decide

/- ---------------- C10 ---------------- -/

/-- A scan line referencing chrome_child.dll instead of chrome.dll. -/
def childLine : String :=
  "\"[RSDS] PdbSig: \x7bAAAAAAAA-BBBB-CCCC-DDDD-EEEEEEEEEEEE\x7d; Age: 3; Pdb: C:\\x\\chrome_child.dll.pdb\""

/-- C10: the cache filename derived from any matching line has the fixed
prefix `c:\symcache\chrome.dll-` and depends only on the signature and the
age — two lines with the same signature and age but different PDB paths
derive the same filename.  Concretely, an uncached chrome_child.dll
reference is checked against a `chrome.dll-`-named symcache file that has
no "chrome_child" in it, while the PDB basename appears only in the printed
message of the scan. -/
theorem c10_cache_name_ignores_binary_name :
    (∀ line g a p, matchPdbRe line = some (g, a, p) →
      symcacheFileOf line =
          some ("c:\\symcache\\chrome.dll-" ++ removeDashes g ++ a ++ "v2.symcache") ∧
        ∀ line2 p2, matchPdbRe line2 = some (g, a, p2) →
          symcacheFileOf line2 = symcacheFileOf line) ∧
      symcacheFileOf childLine =
        some "c:\\symcache\\chrome.dll-AAAAAAAABBBBCCCCDDDDEEEEEEEEEEEE3v2.symcache" ∧
      hasInfix "chrome_child".data
        "c:\\symcache\\chrome.dll-AAAAAAAABBBBCCCCDDDDEEEEEEEEEEEE3v2.symcache".data = false ∧
      scanGo (fun _ => false) [childLine] =
        ([Event.print (foundMsg "chrome_child.dll.pdb" "AAAAAAAABBBBCCCCDDDDEEEEEEEEEEEE" "3")],
         Except.error nameErrorSymcacheFiles) := by
  refine ⟨?_, by decide, by decide, by rfl⟩
  intro line g a p h
  constructor
  · simp [symcacheFileOf, h, symcacheName]
  · intro line2 p2 h2
    simp [symcacheFileOf, h, h2]

/-- Witness for C10 at the specification's concrete line. -/
theorem c10_cache_name_ignores_binary_name_witness :
    matchPdbRe c3line =
        some ("AAAAAAAA-BBBB-CCCC-DDDD-EEEEEEEEEEEE", "3", "C:\\x\\chrome.dll.pdb") ∧
      symcacheFileOf c3line =
        some ("c:\\symcache\\chrome.dll-" ++ removeDashes "AAAAAAAA-BBBB-CCCC-DDDD-EEEEEEEEEEEE"
          ++ "3" ++ "v2.symcache") :=
  ⟨by decide,
   (c10_cache_name_ignores_binary_name.1 c3line "AAAAAAAA-BBBB-CCCC-DDDD-EEEEEEEEEEEE" "3"
     "C:\\x\\chrome.dll.pdb" (by decide)).1⟩
